import Mathlib

/-!
Shallow embedding of `nevergrad/functions/images/core.py`.

Modelling conventions:
* numpy arrays and torch tensors are `Tensor`: a shape (list of dims) plus a
  flat row-major data list; float values are modelled as rationals.
* Pretrained models (the classifier, the PGAN generator, torch's
  `CrossEntropyLoss` core value) are external black boxes and appear as
  function-valued parameters or fields; the module's own glue (sign flip,
  clamping, reshaping, filtering, validation) is translated statement by
  statement.
* Python `assert`/`raise` at construction is an `Except String` result.
* Methods that in Python could mutate `self` are translated with explicit
  state passing: they return the (possibly updated) object next to the value.
* `.item()` on a tensor is partial in torch (it needs exactly one element),
  so it returns an `Option `.
-/

/-- A numeric array: shape plus flat row-major data (floats as rationals). -/
structure Tensor where
  shape : List ℕ
  data : List ℚ
deriving Repr, DecidableEq

/-- Elementwise addition (`image + y`); operands have equal shapes here. -/
def Tensor.add (a b : Tensor) : Tensor :=
  { shape := a.shape, data := List.zipWith (fun u v => u + v) a.data b.data }

/-- `torch.clamp(t, lo, hi)`: elementwise `min hi (max lo v)`. -/
def clampQ (lo hi v : ℚ) : ℚ := min hi (max lo v)

/-- Elementwise clamp of a tensor. -/
def Tensor.clamp (t : Tensor) (lo hi : ℚ) : Tensor :=
  { shape := t.shape, data := t.data.map (clampQ lo hi) }

/-- `t.view(s)`: reshape, keeping the flat data. -/
def Tensor.view (t : Tensor) (s : List ℕ) : Tensor :=
  { shape := s, data := t.data }

/-- `t.item()`: the scalar held by a one-element tensor; fails otherwise. -/
def Tensor.item (t : Tensor) : Option ℚ :=
  match t.data with
  | [v] => some v
  | _ => none

/-- `t[0]`: drop the leading (batch) dimension. With batch size 1 the flat
data of the slice is the whole data. -/
def Tensor.index0 (t : Tensor) : Tensor :=
  { shape := t.shape.tail, data := t.data.take t.shape.tail.prod }

/-- `torch.zeros(shape)`. -/
def zeros (shape : List ℕ) : Tensor :=
  { shape := shape, data := List.replicate shape.prod 0 }

/-- `np.random.normal(size=shape)`: an external random draw; the sampled
entries are an abstract parameter, the shape is the requested one (numpy's
contract). -/
def randomNormal (entries : ℕ → ℚ) (shape : List ℕ) : Tensor :=
  { shape := shape, data := (List.range shape.prod).map entries }

/-- Index of the first maximal element, the index part of
`torch.max(values, axis=1)` on a single-row tensor. -/
def firstArgmax : List ℚ → ℕ
  | [] => 0
  | [_] => 0
  | a :: b :: rest =>
    let j := firstArgmax (b :: rest)
    if (b :: rest).getD j 0 > a then j + 1 else 0

/-- `isOk` test on an `Except` result (construction succeeded). -/
def exceptOk {α : Type} (e : Except String α) : Bool :=
  match e with
  | .ok _ => true
  | .error _ => false

/-- `np.asarray(image)[:, :, :3]`: keep only the first three channels of an
`h × w × c` image array. -/
def sliceLast3 (t : Tensor) : Tensor :=
  match t.shape with
  | [h, w, c] =>
    let c3 := min c 3
    { shape := [h, w, c3],
      data := (List.range (h * w * c3)).map (fun i =>
        let ch := i % c3
        let r := i / c3
        let col := r % w
        let row := r / w
        t.data.getD ((row * w + col) * c + ch) 0) }
  | _ => t

/-- Modelled from the spec: `SumAbsoluteDifferencesLoss` lives in
`nevergrad.functions.images.imageLosses`, which is not under src/; the spec
calls the image-recovery objective "a fixed reference image and a
pixel-difference loss". It is the sum of absolute pixel differences against
the reference, a single scalar. -/
def SumAbsoluteDifferencesLoss (reference : Tensor) (x : Tensor) : ℚ :=
  (List.zipWith (fun a b => |a - b|) reference.data x.data).sum

/-- State of an `Image` objective after construction. -/
structure Image where
  domain_shape : List ℕ
  problem_name : String
  index : ℤ
  data : Tensor
  loss_function : Tensor → ℚ

/-- `Image.__init__`: stores the high-level fields, asserts
`problem_name == "recovering"` and `index == 0`, loads the reference image
(the PIL load/resize is external: `fileImage` is the loaded array) and keeps
its first three channels, and builds the loss from the reference data.
The `loss` class argument defaults to `SumAbsoluteDifferencesLoss`. -/
def Image.init (problem_name : String) (index : ℤ) (fileImage : Tensor)
    (loss : Tensor → Tensor → ℚ) : Except String Image :=
  let domain_shape : List ℕ := [256, 256, 3]
  if problem_name = "recovering" then
    if index = 0 then
      let data := sliceLast3 fileImage
      .ok { domain_shape := domain_shape, problem_name := problem_name,
            index := index, data := data, loss_function := loss data }
    else .error ("assert index == 0 failed")
  else .error ("assert problem_name == recovering failed")

/-- `Image._loss`: returns `self.loss_function(x)`; no field is written, so
the state comes back unchanged. -/
def Image.loss (s : Image) (x : Tensor) : ℚ × Image :=
  (s.loss_function x, s)

/-- State of an `ImageAdversarial` objective after construction. The
classifier and torch's `nn.CrossEntropyLoss` value are frozen external
models, so they are function fields. -/
structure ImageAdversarial where
  targeted : Bool
  epsilon : ℚ
  image : Tensor
  label : ℤ
  classifier : Tensor → Tensor
  criterion : Tensor → ℤ → ℚ
  imsize : ℕ

/-- `ImageAdversarial.__init__`: stores the configuration and the frozen
artifacts; `self.imsize = self.image.shape[1]`. `ce` is the external
`nn.CrossEntropyLoss()` scalar value. -/
def ImageAdversarial.init (classifier : Tensor → Tensor) (image : Tensor)
    (label : ℤ) (targeted : Bool) (epsilon : ℚ) (ce : Tensor → ℤ → ℚ) :
    ImageAdversarial :=
  { targeted := targeted, epsilon := epsilon, image := image, label := label,
    classifier := classifier, criterion := ce,
    imsize := image.shape.getD 1 0 }

/-- `nn.CrossEntropyLoss()` applied to `(input, target)`: with the default
mean reduction torch returns a zero-dimensional tensor holding a single
scalar; the scalar value itself is the abstract external `ce`. -/
def crossEntropyLoss (ce : Tensor → ℤ → ℚ) (input : Tensor) (target : ℤ) :
    Tensor :=
  { shape := [], data := [ce input target] }

/-- The tensor handed to the classifier inside
`ImageAdversarial._get_classifier_output`:
`torch.clamp(self.image + y, 0, 1)` reshaped to `(1, 3, imsize, imsize)`. -/
def ImageAdversarial.adversarialImage (s : ImageAdversarial) (x : Tensor) :
    Tensor :=
  ((s.image.add x).clamp 0 1).view [1, 3, s.imsize, s.imsize]

/-- `ImageAdversarial._get_classifier_output`. -/
def ImageAdversarial.getClassifierOutput (s : ImageAdversarial) (x : Tensor) :
    Tensor :=
  s.classifier (s.adversarialImage x)

/-- `ImageAdversarial._loss`:
`value = float(self.criterion(output_adv, self.label).item())`, then
`value * (1.0 if self.targeted else -1.0)`. No field is written. -/
def ImageAdversarial.loss (s : ImageAdversarial) (x : Tensor) :
    Option (ℚ × ImageAdversarial) := do
  let output_adv := s.getClassifierOutput x
  let value ← (crossEntropyLoss s.criterion output_adv s.label).item
  return (value * (if s.targeted then 1 else -1), s)

/-- The cross-entropy value of the classifier output on the perturbed image
against the stored label: `self.criterion(output_adv, self.label)`. -/
def ImageAdversarial.ceValue (s : ImageAdversarial) (x : Tensor) : ℚ :=
  s.criterion (s.getClassifierOutput x) s.label

/-- `ImageAdversarial.evaluation_function`:
`_, pred = torch.max(output_adv, axis=1)` (batch size is 1, so the index is
the first argmax of the single row), `actual = int(self.label)`, and
`float(pred == actual if self.targeted else pred != actual)`. -/
def ImageAdversarial.evaluationFunction (s : ImageAdversarial) (x : Tensor) :
    ℚ :=
  let output_adv := s.getClassifierOutput x
  let pred : ℕ := firstArgmax output_adv.data
  let actual : ℤ := s.label
  if s.targeted then
    (if (pred : ℤ) = actual then 1 else 0)
  else
    (if (pred : ℤ) ≠ actual then 1 else 0)

/-- `classifier = Resnet50() if model == "resnet50" else TestClassifier()`;
both are external pretrained models, passed as parameters. -/
def chooseClassifier (model : String) (resnet : Tensor → Tensor)
    (testClassifier : Tensor → Tensor) : Tensor → Tensor :=
  if model = "resnet50" then resnet else testClassifier

/-- The data loader built by `make_folder_functions`: with `folder is None`
one zero image with its own prediction as target; with an existing directory
the folder dataset (`loadFolder`, external: ImageFolder plus DataLoader);
otherwise `raise ValueError(f"{folder} is not a valid folder.")`. -/
def dataLoaderOf (isDir : String → Bool)
    (loadFolder : String → List (Tensor × ℤ)) (folder : Option String)
    (classifier : Tensor → Tensor) : Except String (List (Tensor × ℤ)) :=
  match folder with
  | none =>
    let x := zeros [1, 3, 224, 224]
    let pred : ℤ := firstArgmax (classifier x).data
    .ok [(x, pred)]
  | some f =>
    if isDir f then .ok (loadFolder f)
    else .error (f ++ " is not a valid folder.")

/-- `ImageAdversarial.make_folder_functions`: asserts the model name, picks
the classifier, builds the data loader, and yields one instance per
`(data, target)` pair whose prediction matches the target, constructed with
`label=int(target)`, `targeted=False`, `epsilon=0.05`, `image=data[0]`.
The generator is modelled as the list of everything it yields. -/
def ImageAdversarial.makeFolderFunctions (isDir : String → Bool)
    (loadFolder : String → List (Tensor × ℤ)) (folder : Option String)
    (model : String) (resnet testClassifier : Tensor → Tensor)
    (ce : Tensor → ℤ → ℚ) : Except String (List ImageAdversarial) :=
  if model = "resnet50" ∨ model = "test" then
    let classifier := chooseClassifier model resnet testClassifier
    match dataLoaderOf isDir loadFolder folder classifier with
    | .error e => .error e
    | .ok dl =>
      .ok (dl.filterMap (fun dt =>
        let pred : ℤ := firstArgmax (classifier dt.1).data
        if pred = dt.2 then
          some (ImageAdversarial.init classifier dt.1.index0 dt.2 false
            (1 / 20) ce)
        else none))
  else .error ("assert model in (resnet50, test) failed")

/-- State of an `ImageFromPGAN` objective after construction. The PGAN
generator (its `.test` method) and the scorer are frozen external models. -/
structure ImageFromPGAN where
  pgan_model : Tensor → Tensor
  noise_shape : List ℕ
  initial_noise : Tensor
  loss_function : Tensor → ℚ

/-- `ImageFromPGAN.__init__`: loads the external PGAN (`pganTest` is its
`.test` method), sets `noise_shape = (1, 512)`, draws a random normal noise
of that shape when `initial_noise is None`, and asserts the noise shape.
The scorer defaults to `Koncept512Loss`, an external image-quality scorer
returning a scalar; it is not under src/, so it stays abstract. -/
def ImageFromPGAN.init (initial_noise : Option Tensor) (entries : ℕ → ℚ)
    (pganTest : Tensor → Tensor) (scorer : Tensor → ℚ) :
    Except String ImageFromPGAN :=
  let noise_shape : List ℕ := [1, 512]
  let noise := match initial_noise with
    | none => randomNormal entries noise_shape
    | some t => t
  if noise.shape = noise_shape then
    .ok { pgan_model := pganTest, noise_shape := noise_shape,
          initial_noise := noise, loss_function := scorer }
  else
    .error ("The shape of the initial noise vector was wrong, it should be (1, 512)")

/-- `permute(0, 2, 3, 1)` on an `n × c × h × w` tensor: shape becomes
`n × h × w × c` and the data is reindexed accordingly. -/
def permute0231 (t : Tensor) : Tensor :=
  match t.shape with
  | [n, c, h, w] =>
    { shape := [n, h, w, c],
      data := (List.range (n * h * w * c)).map (fun i =>
        let iC := i % c
        let r := i / c
        let iW := r % w
        let r2 := r / w
        let iH := r2 % h
        let iN := r2 / h
        t.data.getD (((iN * c + iC) * h + iH) * w + iW) 0) }
  | _ => t

/-- `ImageFromPGAN._generate_images`: run the generator on the noise and
permute to channel-last (`astype`, `cpu`, `numpy` are identities here). -/
def ImageFromPGAN.generateImages (s : ImageFromPGAN) (x : Tensor) : Tensor :=
  permute0231 (s.pgan_model x)

/-- `ImageFromPGAN._loss`: score the generated image; no field is written. -/
def ImageFromPGAN.loss (s : ImageFromPGAN) (x : Tensor) :
    ℚ × ImageFromPGAN :=
  (s.loss_function (s.generateImages x), s)

/-! Concrete sample values used to instantiate theorems with hypotheses. -/

/-- A trivial external cross-entropy value, for instantiation. -/
def ceW : Tensor → ℤ → ℚ := fun _ _ => 0

/-- The identity as a stand-in external classifier, for instantiation. -/
def idT : Tensor → Tensor := fun t => t

/-- A small concrete batched tensor: shape `1 × 2`, data `[0, 1]`. -/
def tensorW : Tensor := { shape := [1, 2], data := [0, 1] }

/-- A small concrete adversarial state: one-pixel three-channel image. -/
def advW : ImageAdversarial :=
  ImageAdversarial.init idT { shape := [3, 1, 1], data := [1/2, 0, 0] }
    0 false (1 / 20) ceW

/-- A perturbation pushing the first channel above 1 before clamping. -/
def xW : Tensor := { shape := [3, 1, 1], data := [2, 0, 0] }

/-- The instance `make_folder_functions` yields on the sample loader. -/
def advYieldW : ImageAdversarial :=
  ImageAdversarial.init (chooseClassifier ("test") idT idT) tensorW.index0
    1 false (1 / 20) ceW


/-! Theorems settling the claims. -/

/-- C1: for every candidate perturbation `x`, `ImageAdversarial._loss(x)`
returns the cross-entropy of the frozen classifier's output on the perturbed
image against the stored label when `targeted` is true, and the negation of
that cross-entropy value when `targeted` is false. -/
theorem adversarial_loss_sign_flip (s : ImageAdversarial) (x : Tensor) :
    s.loss x =
      some ((if s.targeted then s.ceValue x else -(s.ceValue x)), s) := by
  cases htg : s.targeted <;>
    simp [ImageAdversarial.loss, ImageAdversarial.ceValue, crossEntropyLoss,
      Tensor.item, htg, mul_one, mul_neg_one]

/-- C2: constructing `Image(problem_name, index)` succeeds exactly when
`problem_name == "recovering"` and `index == 0`; any other problem name or
index fails the construction-time assertions. -/
theorem image_init_validation (p : String) (i : ℤ) (img : Tensor)
    (lossArg : Tensor → Tensor → ℚ) :
    exceptOk (Image.init p i img lossArg) = true ↔
      (p = "recovering" ∧ i = 0) := by
  by_cases h1 : p = "recovering" <;> by_cases h2 : i = 0 <;>
    simp [Image.init, exceptOk, h1, h2]

/-- C3: constructing `ImageFromPGAN` with a given (non-None) initial noise
succeeds exactly when its shape is `(1, 512)`; with `initial_noise = None`
the random draw has shape `(1, 512)` and the shape check always passes. -/
theorem pgan_init_noise_shape_validation (entries : ℕ → ℚ)
    (pganTest : Tensor → Tensor) (scorer : Tensor → ℚ) (t : Tensor) :
    (exceptOk (ImageFromPGAN.init (some t) entries pganTest scorer) = true ↔
      t.shape = [1, 512]) ∧
    exceptOk (ImageFromPGAN.init none entries pganTest scorer) = true := by
  constructor
  · by_cases h : t.shape = [1, 512] <;>
      simp [ImageFromPGAN.init, exceptOk, h]
  · simp [ImageFromPGAN.init, exceptOk, randomNormal]

/-- C5: for every objective state and candidate array, each of the three
loss callables returns a single rational scalar (in particular the `.item()`
extraction inside `ImageAdversarial._loss` never fails), never an array. -/
theorem losses_return_scalar (si : Image) (sa : ImageAdversarial)
    (sp : ImageFromPGAN) (x : Tensor) :
    ∃ v1 v2 v3 : ℚ,
      si.loss x = (v1, si) ∧
      sa.loss x = some (v2, sa) ∧
      sp.loss x = (v3, sp) :=
  ⟨si.loss_function x,
   sa.criterion (sa.getClassifierOutput x) sa.label *
     (if sa.targeted then 1 else -1),
   sp.loss_function (sp.generateImages x),
   rfl, rfl, rfl⟩

/-- C6: evaluating any of the three loss callables leaves the objective's
state — the reference artifacts set at construction (reference image data,
adversarial image/label/classifier/epsilon, GAN model) — unchanged. -/
theorem losses_preserve_state (si : Image) (sa : ImageAdversarial)
    (sp : ImageFromPGAN) (x : Tensor) :
    (si.loss x).2 = si ∧
    (sa.loss x).map Prod.snd = some sa ∧
    (sp.loss x).2 = sp :=
  ⟨rfl, rfl, rfl⟩

/-- C7: each loss is a pure function of the candidate: running it a second
time, from the state the first run returned, yields the same scalar. -/
theorem losses_deterministic (si : Image) (sa : ImageAdversarial)
    (sp : ImageFromPGAN) (x : Tensor) :
    (Image.loss (si.loss x).2 x).1 = (si.loss x).1 ∧
    ((sa.loss x).bind (fun p => ImageAdversarial.loss p.2 x)).map Prod.fst =
      (sa.loss x).map Prod.fst ∧
    (ImageFromPGAN.loss (sp.loss x).2 x).1 = (sp.loss x).1 :=
  ⟨rfl, rfl, rfl⟩

/-- C8: `evaluation_function` returns exactly 0 or 1, and returns 1 exactly
when the classifier's argmax prediction on the perturbed image equals the
stored label (targeted) or differs from it (untargeted). -/
theorem adv_evaluation_indicator (s : ImageAdversarial) (x : Tensor) :
    (s.evaluationFunction x = 0 ∨ s.evaluationFunction x = 1) ∧
    (s.evaluationFunction x = 1 ↔
      (if s.targeted
       then ((firstArgmax (s.getClassifierOutput x).data : ℤ) = s.label)
       else ((firstArgmax (s.getClassifierOutput x).data : ℤ) ≠ s.label))) := by
  cases htg : s.targeted <;>
    simp only [ImageAdversarial.evaluationFunction, htg, Bool.false_eq_true,
      if_false, if_true] <;>
    split_ifs with h <;> simp [h]

/-- C9: for every candidate perturbation `x` (including values outside
`[-epsilon, epsilon]`), the tensor handed to the classifier is the perturbed
image clamped elementwise to `[0, 1]`, and every element of it lies in
`[0, 1]`. -/
theorem adversarial_image_clamped (s : ImageAdversarial) (x : Tensor) :
    s.getClassifierOutput x = s.classifier (s.adversarialImage x) ∧
    ∀ e ∈ (s.adversarialImage x).data, 0 ≤ e ∧ e ≤ 1 := by
  refine ⟨rfl, ?_⟩
  intro e he
  simp only [ImageAdversarial.adversarialImage, Tensor.view, Tensor.clamp,
    List.mem_map] at he
  obtain ⟨v, hv, rfl⟩ := he
  unfold clampQ
  exact ⟨le_min zero_le_one (le_max_left _ _), min_le_left _ _⟩

/-- Witness for C9 at a concrete state and perturbation: the perturbation 2
on a pixel of value 1/2 is clamped, the element 1 of the clamped image is in
`[0, 1]`. -/
theorem adversarial_image_clamped_witness :
    advW.getClassifierOutput xW = advW.classifier (advW.adversarialImage xW) ∧
    (0 ≤ (1 : ℚ) ∧ (1 : ℚ) ≤ 1) :=
  ⟨(adversarial_image_clamped advW xW).1,
   (adversarial_image_clamped advW xW).2 1 (by
    norm_num [advW, xW, ImageAdversarial.adversarialImage,
      ImageAdversarial.init, idT, Tensor.add, Tensor.clamp, Tensor.view,
      clampQ])⟩

/-- C4: when the folder argument is neither None nor an existing directory
(and the model name passes its own assertion), `make_folder_functions`
raises `ValueError(f"{folder} is not a valid folder.")` and produces no
experiment function. -/
theorem make_folder_invalid_folder_error (isDir : String → Bool)
    (loadFolder : String → List (Tensor × ℤ)) (f : String) (model : String)
    (resnet testClassifier : Tensor → Tensor) (ce : Tensor → ℤ → ℚ)
    (hm : model = "resnet50" ∨ model = "test") (hd : isDir f = false) :
    ImageAdversarial.makeFolderFunctions isDir loadFolder (some f) model
      resnet testClassifier ce = .error (f ++ " is not a valid folder.") := by
  unfold ImageAdversarial.makeFolderFunctions dataLoaderOf
  rw [if_pos hm]
  simp [hd]

/-- Witness for C4 at a concrete invalid folder. -/
theorem make_folder_invalid_folder_error_witness :
    ImageAdversarial.makeFolderFunctions (fun _ => false) (fun _ => [])
      (some ("nodir")) ("test") idT idT ceW =
      .error ("nodir is not a valid folder.") :=
  make_folder_invalid_folder_error _ _ _ _ _ _ _ (Or.inr rfl) rfl

/-- C10: every instance yielded by `make_folder_functions` comes from a
loader pair whose classifier argmax prediction equals the dataset target,
and is constructed with `targeted = False` and `epsilon = 0.05`. -/
theorem make_folder_yields_correct (isDir : String → Bool)
    (loadFolder : String → List (Tensor × ℤ)) (folder : Option String)
    (model : String) (resnet testClassifier : Tensor → Tensor)
    (ce : Tensor → ℤ → ℚ) (funcs : List ImageAdversarial)
    (h : ImageAdversarial.makeFolderFunctions isDir loadFolder folder model
      resnet testClassifier ce = .ok funcs)
    (f : ImageAdversarial) (hf : f ∈ funcs) :
    f.targeted = false ∧ f.epsilon = 1 / 20 ∧
    ∃ dl d t,
      dataLoaderOf isDir loadFolder folder
        (chooseClassifier model resnet testClassifier) = .ok dl ∧
      (d, t) ∈ dl ∧
      (firstArgmax ((chooseClassifier model resnet testClassifier) d).data : ℤ)
        = t ∧
      f.image = d.index0 ∧ f.label = t := by
  unfold ImageAdversarial.makeFolderFunctions at h
  split at h
  case isTrue hm =>
    dsimp only at h
    split at h
    case h_1 e heq => simp at h
    case h_2 dl heq =>
      rw [Except.ok.injEq] at h
      subst h
      rw [List.mem_filterMap] at hf
      obtain ⟨⟨d, t⟩, hdl, hsome⟩ := hf
      dsimp only at hsome
      split at hsome
      case isTrue hp =>
        rw [Option.some.injEq] at hsome
        subst hsome
        exact ⟨rfl, rfl, dl, d, t, heq, hdl, hp, rfl, rfl⟩
      case isFalse hp => simp at hsome
  case isFalse hm => simp at h

/-- Witness for C10 at a concrete one-image loader that the identity
classifier classifies correctly. -/
theorem make_folder_yields_correct_witness :
    advYieldW.targeted = false ∧ advYieldW.epsilon = 1 / 20 ∧
    ∃ dl d t,
      dataLoaderOf (fun _ => true) (fun _ => [(tensorW, 1)]) (some ("d"))
        (chooseClassifier ("test") idT idT) = .ok dl ∧
      (d, t) ∈ dl ∧
      (firstArgmax ((chooseClassifier ("test") idT idT) d).data : ℤ) = t ∧
      advYieldW.image = d.index0 ∧ advYieldW.label = t :=
  make_folder_yields_correct (fun _ => true) (fun _ => [(tensorW, 1)])
    (some ("d")) ("test") idT idT ceW [advYieldW] rfl advYieldW
    (List.mem_singleton.mpr rfl)
